import Mathlib

/-!
Verification development for the `SecureBootFHE` Solidity contract
(encrypted boot attestation over FHE ciphertext handles).

Shallow embedding conventions:
- `euint32` ciphertext handles are modelled by the plaintext `Nat` value
  they encrypt (values are kept below `2^32`; `FHE.add` wraps modulo `2^32`).
- Encrypted booleans produced by `FHE.eq` / `FHE.gt` are modelled by `Bool`.
- Solidity mappings are total functions with the EVM default value
  (`0` for `euint32` handles, `[]` for dynamic arrays).
- `require` failures and Solidity 0.8 checked-arithmetic panics are modelled
  by `Except`: an `.error` result is a reverted call, which leaves the state
  unchanged (`nextState` returns the pre-state on error, matching EVM
  all-or-nothing transaction semantics).
- `FHE.checkSignatures` is an external capability: its outcome is a `Bool`
  parameter of the callback (`true` means the proof authenticates).
- `block.timestamp` and the decrypted cleartext are explicit parameters.
-/

namespace SecureBootFHE

def UINT32_MOD : Nat := 4294967296

abbrev Address := Nat

/-- `FHE.asEuint32` on a plaintext constant (truncating cast to 32 bits). -/
def fheAsEuint32 (n : Nat) : Nat := n % UINT32_MOD

/-- `FHE.add` on `euint32`: homomorphic addition, wrapping modulo `2^32`. -/
def fheAdd (a b : Nat) : Nat := (a + b) % UINT32_MOD

/-- `FHE.eq` on `euint32`: homomorphic equality test. -/
def fheEq (a b : Nat) : Bool := a == b

/-- `FHE.gt` on `euint32`: homomorphic strict greater-than (`a > b`). -/
def fheGt (a b : Nat) : Bool := b < a

/-- `FHE.select cond a b`: homomorphic conditional select. -/
def fheSelect (cond : Bool) (a b : Nat) : Nat := if cond then a else b

/-- `struct FirmwareComponent` (contract lines 8-13). -/
structure FirmwareComponent where
  encryptedChecksum : Nat
  encryptedSize : Nat
  encryptedVersion : Nat
  isVerified : Bool
deriving Repr, DecidableEq

/-- `struct BootStage` (contract lines 15-21). -/
structure BootStage where
  bootloader : FirmwareComponent
  kernel : FirmwareComponent
  rootfs : FirmwareComponent
  overallStatus : Nat
  timestamp : Nat
deriving Repr, DecidableEq

/-- The contract's storage (lines 23-29). -/
structure ContractState where
  deviceBootRecords : Address → List BootStage
  trustedChecksums : Address → Nat
  trustedSizes : Address → Nat
  trustedVersions : Address → Nat
  verificationThreshold : Nat
  admin : Address

/-- The contract's events (lines 31-35). -/
inductive Event where
  | FirmwareRegistered (device : Address)
  | BootAttempt (device : Address) (stageId : Nat)
  | VerificationPassed (device : Address) (stageId : Nat)
  | VerificationFailed (device : Address) (stageId : Nat)
  | ThresholdUpdated (newThreshold : Nat)
deriving Repr, DecidableEq

/-- Revert reasons: the two `require` messages, the signature check of
`FHE.checkSignatures`, and the Solidity 0.8 arithmetic-underflow panic. -/
inductive EvmError where
  | adminOnly
  | invalidStageId
  | invalidSignatures
  | underflow
deriving Repr, DecidableEq

/-- Point update of a Solidity mapping. -/
def mapUpdate {β : Type} (m : Address → β) (k : Address) (v : β) : Address → β :=
  fun a => if a = k then v else m a

/-- Update the element at index `i` of a list in place (storage array write). -/
def modifyAt {α : Type} (l : List α) (i : Nat) (f : α → α) : List α :=
  match l, i with
  | [], _ => []
  | x :: xs, 0 => f x :: xs
  | x :: xs, n + 1 => x :: modifyAt xs n f

/-- The three `isVerified = true` assignments of lines 114-116 / 159-161. -/
def setAllVerified (st : BootStage) : BootStage :=
  { st with
    bootloader := { st.bootloader with isVerified := true }
    kernel := { st.kernel with isVerified := true }
    rootfs := { st.rootfs with isVerified := true } }

/-- `constructor(uint256 _threshold)` (lines 37-40): deployer becomes admin. -/
def mkContract (sender : Address) (threshold : Nat) : ContractState :=
  { deviceBootRecords := fun _ => []
    trustedChecksums := fun _ => 0
    trustedSizes := fun _ => 0
    trustedVersions := fun _ => 0
    verificationThreshold := threshold
    admin := sender }

/-- `registerTrustedFirmware` (lines 47-57), `onlyAdmin` modifier inlined. -/
def registerTrustedFirmware (s : ContractState) (sender device : Address)
    (checksum size version : Nat) : Except EvmError (ContractState × List Event) :=
  if sender = s.admin then
    .ok ({ s with
            trustedChecksums := mapUpdate s.trustedChecksums device checksum
            trustedSizes := mapUpdate s.trustedSizes device size
            trustedVersions := mapUpdate s.trustedVersions device version },
         [Event.FirmwareRegistered device])
  else
    .error EvmError.adminOnly

/-- `verifyComponent` (lines 123-134): three encrypted checks, each
contributing 1 or 0 via `FHE.select`, summed homomorphically. -/
def verifyComponent (s : ContractState) (device : Address)
    (component : FirmwareComponent) : Nat :=
  let checksumValid := fheEq component.encryptedChecksum (s.trustedChecksums device)
  let sizeValid := fheEq component.encryptedSize (s.trustedSizes device)
  let versionValid := fheGt component.encryptedVersion (fheAsEuint32 0)
  let componentScore := fheAsEuint32 0
  let componentScore := fheAdd componentScore
    (fheSelect checksumValid (fheAsEuint32 1) (fheAsEuint32 0))
  let componentScore := fheAdd componentScore
    (fheSelect sizeValid (fheAsEuint32 1) (fheAsEuint32 0))
  let componentScore := fheAdd componentScore
    (fheSelect versionValid (fheAsEuint32 1) (fheAsEuint32 0))
  componentScore

/-- `verifyBootStage` (lines 59-121). `msg.sender` is the device; the call
never reverts. Returns the new state and the emitted events in order. -/
def verifyBootStage (s : ContractState) (sender : Address)
    (bootloaderChecksum bootloaderSize bootloaderVersion
     kernelChecksum kernelSize kernelVersion
     rootfsChecksum rootfsSize rootfsVersion
     blockTimestamp : Nat) : ContractState × List Event :=
  let device := sender
  let bootloader : FirmwareComponent :=
    ⟨bootloaderChecksum, bootloaderSize, bootloaderVersion, false⟩
  let kernel : FirmwareComponent :=
    ⟨kernelChecksum, kernelSize, kernelVersion, false⟩
  let rootfs : FirmwareComponent :=
    ⟨rootfsChecksum, rootfsSize, rootfsVersion, false⟩
  let bootloaderValid := verifyComponent s device bootloader
  let kernelValid := verifyComponent s device kernel
  let rootfsValid := verifyComponent s device rootfs
  let overallStatus := fheAsEuint32 0
  let overallStatus := fheAdd overallStatus bootloaderValid
  let overallStatus := fheAdd overallStatus kernelValid
  let overallStatus := fheAdd overallStatus rootfsValid
  let stageId := (s.deviceBootRecords device).length
  let newStage : BootStage := ⟨bootloader, kernel, rootfs, overallStatus, blockTimestamp⟩
  let records := s.deviceBootRecords device ++ [newStage]
  if fheGt overallStatus (fheAsEuint32 (s.verificationThreshold % UINT32_MOD)) then
    let records := modifyAt records stageId setAllVerified
    ({ s with deviceBootRecords := mapUpdate s.deviceBootRecords device records },
     [Event.BootAttempt device stageId, Event.VerificationPassed device stageId])
  else
    ({ s with deviceBootRecords := mapUpdate s.deviceBootRecords device records },
     [Event.BootAttempt device stageId, Event.VerificationFailed device stageId])

/-- `requestBootStatusDecryption` (lines 136-145): checks the stage id, then
calls the external `FHE.requestDecryption`; the returned `reqId` is bound to
a local variable and discarded, so no state is written. -/
def requestBootStatusDecryption (s : ContractState) (sender : Address)
    (stageId : Nat) : Except EvmError (ContractState × List Event) :=
  if stageId < (s.deviceBootRecords sender).length then
    .ok (s, [])
  else
    .error EvmError.invalidStageId

/-- `decryptBootStatus` (lines 147-163). `proofValid` is the outcome of the
external `FHE.checkSignatures(requestId, cleartexts, proof)`; `status` is the
decoded `uint32` cleartext. `requestId` is otherwise unused by the body.
`deviceBootRecords[msg.sender].length - 1` panics (checked arithmetic)
when the sender's history is empty. No event is emitted. -/
def decryptBootStatus (s : ContractState) (sender : Address) (requestId : Nat)
    (status : Nat) (proofValid : Bool) : Except EvmError (ContractState × List Event) :=
  if proofValid then
    let device := sender
    if (s.deviceBootRecords device).length = 0 then
      .error EvmError.underflow
    else
      let latestStage := (s.deviceBootRecords device).length - 1
      if s.verificationThreshold % UINT32_MOD < status then
        let records := modifyAt (s.deviceBootRecords device) latestStage setAllVerified
        .ok ({ s with deviceBootRecords := mapUpdate s.deviceBootRecords device records }, [])
      else
        .ok (s, [])
  else
    .error EvmError.invalidSignatures

/-- `updateVerificationThreshold` (lines 165-168), `onlyAdmin` inlined. -/
def updateVerificationThreshold (s : ContractState) (sender : Address)
    (newThreshold : Nat) : Except EvmError (ContractState × List Event) :=
  if sender = s.admin then
    .ok ({ s with verificationThreshold := newThreshold },
         [Event.ThresholdUpdated newThreshold])
  else
    .error EvmError.adminOnly

/-- `getBootStageCount` (lines 170-172). -/
def getBootStageCount (s : ContractState) (device : Address) : Nat :=
  (s.deviceBootRecords device).length

/-- One externally invokable operation of the contract. -/
inductive Op where
  | register (sender device : Address) (checksum size version : Nat)
  | submit (sender : Address)
      (bc bs bv kc ks kv rc rs rv blockTimestamp : Nat)
  | requestDecrypt (sender : Address) (stageId : Nat)
  | callback (sender : Address) (requestId status : Nat) (proofValid : Bool)
  | setThreshold (sender : Address) (newThreshold : Nat)

/-- Dispatch an operation to the corresponding contract function. -/
def applyOp (op : Op) (s : ContractState) : Except EvmError (ContractState × List Event) :=
  match op with
  | .register sender device c sz v => registerTrustedFirmware s sender device c sz v
  | .submit sender bc bs bv kc ks kv rc rs rv ts =>
      .ok (verifyBootStage s sender bc bs bv kc ks kv rc rs rv ts)
  | .requestDecrypt sender stageId => requestBootStatusDecryption s sender stageId
  | .callback sender rid status pv => decryptBootStatus s sender rid status pv
  | .setThreshold sender t => updateVerificationThreshold s sender t

/-- Post-state of a transaction: a reverted call leaves the state unchanged. -/
def nextState (op : Op) (s : ContractState) : ContractState :=
  match applyOp op s with
  | .ok (s', _) => s'
  | .error _ => s

/-- Whether a transaction succeeds (does not revert). -/
def opOk (op : Op) (s : ContractState) : Bool :=
  match applyOp op s with
  | .ok _ => true
  | .error _ => false

/-- The events emitted by a transaction (none if it reverts). -/
def opEvents (op : Op) (s : ContractState) : List Event :=
  match applyOp op s with
  | .ok (_, ev) => ev
  | .error _ => []

/-- Run a sequence of transactions. -/
def runOps (ops : List Op) (s : ContractState) : ContractState :=
  ops.foldl (fun s op => nextState op s) s

/-- The overall encrypted score computed by `verifyBootStage` (lines 97-100):
`FHE.add` of the three component scores onto an encrypted zero. -/
def stageScore (s : ContractState) (sender : Address)
    (bc bs bv kc ks kv rc rs rv : Nat) : Nat :=
  fheAdd (fheAdd (fheAdd (fheAsEuint32 0)
    (verifyComponent s sender ⟨bc, bs, bv, false⟩))
    (verifyComponent s sender ⟨kc, ks, kv, false⟩))
    (verifyComponent s sender ⟨rc, rs, rv, false⟩)

/-- The record pushed by `verifyBootStage` (lines 102-109), before the
synchronous decision possibly flips its flags. -/
def submittedStage (s : ContractState) (sender : Address)
    (bc bs bv kc ks kv rc rs rv ts : Nat) : BootStage :=
  ⟨⟨bc, bs, bv, false⟩, ⟨kc, ks, kv, false⟩, ⟨rc, rs, rv, false⟩,
   stageScore s sender bc bs bv kc ks kv rc rs rv, ts⟩

/-- The synchronous decision condition of line 113:
`FHE.gt(overallStatus, FHE.asEuint32(uint32(verificationThreshold)))`. -/
def syncPass (s : ContractState) (sender : Address)
    (bc bs bv kc ks kv rc rs rv : Nat) : Bool :=
  fheGt (stageScore s sender bc bs bv kc ks kv rc rs rv)
    (fheAsEuint32 (s.verificationThreshold % UINT32_MOD))

/-- Plaintext component score against the mapping-default (all-zero) profile
of an unregistered device. -/
def zeroProfileScore (c sz v : Nat) : Nat :=
  (if c = 0 then 1 else 0) + (if sz = 0 then 1 else 0) + (if 0 < v then 1 else 0)

/-! ### Concrete scenario states

Device `1`, admin `0`. The trusted reference is `(42, 1024, 3)` as in the
spec's worked scenarios. -/

/-- Threshold 5, reference registered for device 1. -/
def demoRef : ContractState :=
  nextState (.register 0 1 42 1024 3) (mkContract 0 5)

/-- A fully matching submission by device 1 against `demoRef`. -/
def c2run : ContractState × List Event :=
  verifyBootStage demoRef 1 42 1024 3 42 1024 3 42 1024 3 100

/-- Deployed with threshold 9 so the matching submission (score 9) is not
synchronously marked verified; the admin then lowers the threshold to 5.
No decryption request is ever made in this history. -/
def c3State : ContractState :=
  runOps [.register 0 1 42 1024 3,
          .submit 1 42 1024 3 42 1024 3 42 1024 3 100,
          .setThreshold 0 5]
    (mkContract 0 9)

/-- As `c3State`, but a decryption request is made for stage 0 and a second
stage (bootloader checksum mismatch, score 8) is appended before the
callback arrives. -/
def c4State : ContractState :=
  runOps [.register 0 1 42 1024 3,
          .submit 1 42 1024 3 42 1024 3 42 1024 3 100,
          .requestDecrypt 1 0,
          .submit 1 41 1024 3 42 1024 3 42 1024 3 200,
          .setThreshold 0 5]
    (mkContract 0 9)

/-- Threshold 8; one stage with score 8 appended (sync decision fails). -/
def c5Base : ContractState :=
  runOps [.register 0 1 42 1024 3,
          .submit 1 41 1024 3 42 1024 3 42 1024 3 100]
    (mkContract 0 8)

/-- Callback (cleartext 8) delivered with the threshold still 8. -/
def c5NoUpd : ContractState := nextState (.callback 1 5 8 true) c5Base

/-- Callback (cleartext 8) delivered after the admin lowered the threshold
to 7 in between. -/
def c5WithUpd : ContractState :=
  nextState (.callback 1 5 8 true) (nextState (.setThreshold 0 7) c5Base)

/-- Threshold 8, reference registered for device 1. -/
def demoRef8 : ContractState :=
  nextState (.register 0 1 42 1024 3) (mkContract 0 8)

/-- Threshold 7, reference registered for device 1. -/
def demoRef7 : ContractState :=
  nextState (.register 0 1 42 1024 3) (mkContract 0 7)

/-- `c3State` after a successful callback: device 1's single stage has all
three `isVerified` flags set. -/
def c8State : ContractState := nextState (.callback 1 999 9 true) c3State

/-- Device 1's stage in `c3State` (flags still false). -/
def unverifiedDemoStage : BootStage :=
  ⟨⟨42, 1024, 3, false⟩, ⟨42, 1024, 3, false⟩, ⟨42, 1024, 3, false⟩, 9, 100⟩

/-- Device 1's stage in `c8State` (flags flipped true). -/
def verifiedDemoStage : BootStage :=
  ⟨⟨42, 1024, 3, true⟩, ⟨42, 1024, 3, true⟩, ⟨42, 1024, 3, true⟩, 9, 100⟩

/-! ### Helper lemmas -/

theorem mapUpdate_self {β : Type} (m : Address → β) (k : Address) (v : β) :
    mapUpdate m k v k = v := by
  simp [mapUpdate]

theorem mapUpdate_ne {β : Type} (m : Address → β) (k : Address) (v : β)
    (a : Address) (h : a ≠ k) : mapUpdate m k v a = m a := by
  simp [mapUpdate, h]

theorem length_modifyAt {α : Type} (f : α → α) :
    ∀ (l : List α) (i : Nat), (modifyAt l i f).length = l.length := by
  intro l
  induction l with
  | nil => intro i; rfl
  | cons x xs ih =>
    intro i
    cases i with
    | zero => rfl
    | succ n => simp [modifyAt, ih n]

theorem getElem?_modifyAt {α : Type} (f : α → α) :
    ∀ (l : List α) (i j : Nat),
      (modifyAt l i f)[j]? = if i = j then Option.map f l[j]? else l[j]? := by
  intro l
  induction l with
  | nil => intro i j; simp [modifyAt]
  | cons x xs ih =>
    intro i j
    cases i with
    | zero =>
      cases j with
      | zero => simp [modifyAt]
      | succ m => simp [modifyAt]
    | succ n =>
      cases j with
      | zero => simp [modifyAt]
      | succ m => simpa [modifyAt, Nat.succ_inj] using ih n m

theorem modifyAt_concat {α : Type} (f : α → α) :
    ∀ (l : List α) (x : α), modifyAt (l ++ [x]) l.length f = l ++ [f x] := by
  intro l
  induction l with
  | nil => intro x; rfl
  | cons y ys ih => intro x; simp [modifyAt, ih x]

theorem verifyComponent_eq (s : ContractState) (device : Address)
    (comp : FirmwareComponent) :
    verifyComponent s device comp =
      (if comp.encryptedChecksum = s.trustedChecksums device then 1 else 0) +
      (if comp.encryptedSize = s.trustedSizes device then 1 else 0) +
      (if 0 < comp.encryptedVersion then 1 else 0) := by
  unfold verifyComponent fheEq fheGt fheSelect fheAdd fheAsEuint32 UINT32_MOD
  by_cases h1 : comp.encryptedChecksum = s.trustedChecksums device <;>
    by_cases h2 : comp.encryptedSize = s.trustedSizes device <;>
    by_cases h3 : 0 < comp.encryptedVersion <;>
    simp [h1, h2, h3, Nat.not_lt]

theorem verifyComponent_le (s : ContractState) (device : Address)
    (comp : FirmwareComponent) :
    verifyComponent s device comp ≤ 3 := by
  rw [verifyComponent_eq]
  split_ifs <;> decide

theorem stageScore_eq (s : ContractState) (sender : Address)
    (bc bs bv kc ks kv rc rs rv : Nat) :
    stageScore s sender bc bs bv kc ks kv rc rs rv =
      verifyComponent s sender ⟨bc, bs, bv, false⟩ +
      verifyComponent s sender ⟨kc, ks, kv, false⟩ +
      verifyComponent s sender ⟨rc, rs, rv, false⟩ := by
  have h1 := verifyComponent_le s sender ⟨bc, bs, bv, false⟩
  have h2 := verifyComponent_le s sender ⟨kc, ks, kv, false⟩
  have h3 := verifyComponent_le s sender ⟨rc, rs, rv, false⟩
  unfold stageScore fheAdd fheAsEuint32 UINT32_MOD
  omega

theorem stageScore_le (s : ContractState) (sender : Address)
    (bc bs bv kc ks kv rc rs rv : Nat) :
    stageScore s sender bc bs bv kc ks kv rc rs rv ≤ 9 := by
  rw [stageScore_eq]
  have h1 := verifyComponent_le s sender ⟨bc, bs, bv, false⟩
  have h2 := verifyComponent_le s sender ⟨kc, ks, kv, false⟩
  have h3 := verifyComponent_le s sender ⟨rc, rs, rv, false⟩
  omega

theorem verifyBootStage_eq (s : ContractState) (sender : Address)
    (bc bs bv kc ks kv rc rs rv ts : Nat) :
    verifyBootStage s sender bc bs bv kc ks kv rc rs rv ts =
      ({ s with deviceBootRecords := mapUpdate s.deviceBootRecords sender (s.deviceBootRecords sender ++ [if syncPass s sender bc bs bv kc ks kv rc rs rv then setAllVerified (submittedStage s sender bc bs bv kc ks kv rc rs rv ts) else submittedStage s sender bc bs bv kc ks kv rc rs rv ts]) },
       [Event.BootAttempt sender (getBootStageCount s sender),
        if syncPass s sender bc bs bv kc ks kv rc rs rv then
          Event.VerificationPassed sender (getBootStageCount s sender)
        else
          Event.VerificationFailed sender (getBootStageCount s sender)]) := by
  cases h : syncPass s sender bc bs bv kc ks kv rc rs rv <;>
    simp only [verifyBootStage, syncPass, stageScore, submittedStage,
      getBootStageCount, Bool.false_eq_true, if_false, if_true] <;>
    simp only [syncPass, stageScore] at h <;>
    rw [h] <;>
    simp [modifyAt_concat]

/-! ### Claims -/

/-- C1, counterexample: with no `ReferenceProfile` registered for device 1,
`verifyBootStage` does not fail — the stage count goes from 0 to 1, so a
`BootStageRecord` is appended, contradicting "fails with `NoTrustedReference`
and appends nothing". -/
theorem C1_counterexample :
    getBootStageCount (mkContract 0 5) 1 = 0 ∧
    opOk (.submit 1 42 1024 3 42 1024 3 42 1024 3 100) (mkContract 0 5) = true ∧
    getBootStageCount (nextState (.submit 1 42 1024 3 42 1024 3 42 1024 3 100) (mkContract 0 5)) 1 = 1 := by
  decide

/-- C1, amended: for a device with no registered `ReferenceProfile` (all
three trusted mappings at their zero default), `verifyBootStage` succeeds,
appends a record at the old stage count (count grows by one), and scores the
evidence against the zero/default profile. -/
theorem C1_amended (s : ContractState) (sender : Address)
    (bc bs bv kc ks kv rc rs rv ts : Nat)
    (hc : s.trustedChecksums sender = 0) (hsz : s.trustedSizes sender = 0)
    (_hv : s.trustedVersions sender = 0) :
    getBootStageCount (verifyBootStage s sender bc bs bv kc ks kv rc rs rv ts).1 sender =
      getBootStageCount s sender + 1 ∧
    ∃ st : BootStage,
      ((verifyBootStage s sender bc bs bv kc ks kv rc rs rv ts).1.deviceBootRecords sender)[getBootStageCount s sender]? = some st ∧
      st.overallStatus =
        zeroProfileScore bc bs bv + zeroProfileScore kc ks kv + zeroProfileScore rc rs rv := by
  have hscore : stageScore s sender bc bs bv kc ks kv rc rs rv =
      zeroProfileScore bc bs bv + zeroProfileScore kc ks kv + zeroProfileScore rc rs rv := by
    rw [stageScore_eq, verifyComponent_eq, verifyComponent_eq, verifyComponent_eq]
    simp only [hc, hsz, zeroProfileScore]
  rw [verifyBootStage_eq]
  constructor
  · simp [getBootStageCount, mapUpdate_self]
  · cases hp : syncPass s sender bc bs bv kc ks kv rc rs rv
    · refine ⟨submittedStage s sender bc bs bv kc ks kv rc rs rv ts, ?_, ?_⟩
      · simp [getBootStageCount, mapUpdate_self, hp]
      · simpa [submittedStage] using hscore
    · refine ⟨setAllVerified (submittedStage s sender bc bs bv kc ks kv rc rs rv ts), ?_, ?_⟩
      · simp [getBootStageCount, mapUpdate_self, hp]
      · simpa [submittedStage, setAllVerified] using hscore

/-- C1, witness for the amended theorem at a concrete unregistered device. -/
theorem C1_witness :
    (mkContract 0 5).trustedChecksums 1 = 0 ∧
    getBootStageCount (verifyBootStage (mkContract 0 5) 1 42 1024 3 42 1024 3 42 1024 3 100).1 1 =
      getBootStageCount (mkContract 0 5) 1 + 1 :=
  ⟨rfl, (C1_amended (mkContract 0 5) 1 42 1024 3 42 1024 3 42 1024 3 100 rfl rfl rfl).1⟩

/-- C2, counterexample: a fully matching submission by device 1 against
`demoRef` (threshold 5, reference `(42,1024,3)`) returns with all three
`isVerified` flags already true and with `VerificationPassed` emitted inside
the very same call — contradicting "all components have `verified=false` at
return and no Passed/Failed event is emitted within the call". -/
theorem C2_counterexample :
    c2run.2 = [Event.BootAttempt 1 0, Event.VerificationPassed 1 0] ∧
    c2run.1.deviceBootRecords 1 =
      [⟨⟨42, 1024, 3, true⟩, ⟨42, 1024, 3, true⟩, ⟨42, 1024, 3, true⟩, 9, 100⟩] := by
  decide

/-- C2, amended: `verifyBootStage` decides synchronously. It branches on the
homomorphic comparison of the overall score with the current threshold
(`syncPass`): on pass it appends the record with all three `isVerified`
flags already true and emits `VerificationPassed` within the call; otherwise
the record keeps `verified=false` and `VerificationFailed` is emitted within
the call. -/
theorem C2_amended (s : ContractState) (sender : Address)
    (bc bs bv kc ks kv rc rs rv ts : Nat) :
    (verifyBootStage s sender bc bs bv kc ks kv rc rs rv ts).2 =
      [Event.BootAttempt sender (getBootStageCount s sender),
       if syncPass s sender bc bs bv kc ks kv rc rs rv then
         Event.VerificationPassed sender (getBootStageCount s sender)
       else
         Event.VerificationFailed sender (getBootStageCount s sender)] ∧
    ((verifyBootStage s sender bc bs bv kc ks kv rc rs rv ts).1.deviceBootRecords sender)[getBootStageCount s sender]? =
      some (if syncPass s sender bc bs bv kc ks kv rc rs rv then
              setAllVerified (submittedStage s sender bc bs bv kc ks kv rc rs rv ts)
            else
              submittedStage s sender bc bs bv kc ks kv rc rs rv ts) := by
  rw [verifyBootStage_eq]
  exact ⟨rfl, by simp [getBootStageCount, mapUpdate_self]⟩

/-- C3, counterexample: in `c3State` no decryption request was ever made
(the history contains no `requestDecrypt`), yet a callback carrying the
arbitrary `requestId` 999 succeeds — it is not rejected with any
`UnknownRequest`-style failure — and flips all three `isVerified` flags of
device 1's stage. -/
theorem C3_counterexample :
    opOk (.callback 1 999 9 true) c3State = true ∧
    c3State.deviceBootRecords 1 = [unverifiedDemoStage] ∧
    (nextState (.callback 1 999 9 true) c3State).deviceBootRecords 1 = [verifiedDemoStage] := by
  decide

/-- C3, amended: `requestBootStatusDecryption` registers nothing — the fresh
`reqId` returned by `FHE.requestDecryption` is discarded and the state is
returned unchanged — and `decryptBootStatus` performs no pending-request
lookup: its result is independent of `requestId`, so a duplicate delivery is
re-processed rather than rejected with `UnknownRequest`. -/
theorem C3_amended (s : ContractState) (sender : Address)
    (stageId rid rid' status : Nat) (pv : Bool)
    (h : stageId < (s.deviceBootRecords sender).length) :
    requestBootStatusDecryption s sender stageId = .ok (s, []) ∧
    decryptBootStatus s sender rid status pv = decryptBootStatus s sender rid' status pv := by
  exact ⟨by simp [requestBootStatusDecryption, h], rfl⟩

/-- C3, witness for the amended theorem on `c3State`. -/
theorem C3_witness :
    0 < (c3State.deviceBootRecords 1).length ∧
    (requestBootStatusDecryption c3State 1 0 = .ok (c3State, []) ∧
     decryptBootStatus c3State 1 5 9 true = decryptBootStatus c3State 1 6 9 true) :=
  ⟨by decide, C3_amended c3State 1 0 5 6 9 true (by decide)⟩

/-- C4, counterexample: in `c4State` the only decryption request was made for
stage 0, yet the authenticated callback finalizes stage 1 — the sender's
latest stage — and emits no `VerificationPassed` event at all, contradicting
both the targeting and the event part of the claim. -/
theorem C4_counterexample :
    opOk (.callback 1 77 9 true) c4State = true ∧
    opEvents (.callback 1 77 9 true) c4State = [] ∧
    (nextState (.callback 1 77 9 true) c4State).deviceBootRecords 1 =
      [⟨⟨42, 1024, 3, false⟩, ⟨42, 1024, 3, false⟩, ⟨42, 1024, 3, false⟩, 9, 100⟩,
       ⟨⟨41, 1024, 3, true⟩, ⟨42, 1024, 3, true⟩, ⟨42, 1024, 3, true⟩, 8, 200⟩] := by
  decide

/-- C4, amended: on a successfully authenticated callback, the stage
finalized is the sender's latest stage (index `length - 1`), regardless of
which stage any request was made for: if the decrypted score is strictly
greater than the current threshold, all three of that latest stage's flags
are set true, otherwise the state is unchanged; no event is emitted in
either case. -/
theorem C4_amended (s : ContractState) (sender : Address) (rid status : Nat)
    (h : 0 < (s.deviceBootRecords sender).length) :
    decryptBootStatus s sender rid status true =
      .ok (if s.verificationThreshold % UINT32_MOD < status then { s with deviceBootRecords := mapUpdate s.deviceBootRecords sender (modifyAt (s.deviceBootRecords sender) ((s.deviceBootRecords sender).length - 1) setAllVerified) } else s, []) := by
  have hne : (s.deviceBootRecords sender).length ≠ 0 := Nat.pos_iff_ne_zero.mp h
  simp only [decryptBootStatus, if_true, hne, if_false]
  split <;> rfl

/-- C4, witness for the amended theorem on `c3State`. -/
theorem C4_witness :
    0 < (c3State.deviceBootRecords 1).length ∧
    decryptBootStatus c3State 1 7 9 true =
      .ok (if c3State.verificationThreshold % UINT32_MOD < 9 then { c3State with deviceBootRecords := mapUpdate c3State.deviceBootRecords 1 (modifyAt (c3State.deviceBootRecords 1) ((c3State.deviceBootRecords 1).length - 1) setAllVerified) } else c3State, []) :=
  ⟨by decide, C4_amended c3State 1 7 9 (by decide)⟩

/-- C5, counterexample: `c5Base` holds one stage with encrypted score 8,
appended while the threshold was 8. Delivering the decryption callback
(cleartext 8) with the threshold still 8 leaves the flags false; delivering
the same callback after the admin lowered the threshold to 7 flips them
true. The threshold update made after the stage was appended therefore
changed that stage's eventual decision. -/
theorem C5_counterexample :
    c5Base.deviceBootRecords 1 =
      [⟨⟨41, 1024, 3, false⟩, ⟨42, 1024, 3, false⟩, ⟨42, 1024, 3, false⟩, 8, 100⟩] ∧
    c5NoUpd.deviceBootRecords 1 =
      [⟨⟨41, 1024, 3, false⟩, ⟨42, 1024, 3, false⟩, ⟨42, 1024, 3, false⟩, 8, 100⟩] ∧
    c5WithUpd.deviceBootRecords 1 =
      [⟨⟨41, 1024, 3, true⟩, ⟨42, 1024, 3, true⟩, ⟨42, 1024, 3, true⟩, 8, 100⟩] := by
  decide

/-- C5, amended: `updateVerificationThreshold` replaces only the threshold
field — it leaves every already-appended boot record (and all other state)
untouched at the moment of the call — but a not-yet-finalized stage is later
decided by the callback against the threshold current at that later time, so
an intervening update can change the stage's eventual decision (see the
counterexample). -/
theorem C5_amended (s : ContractState) (sender : Address) (t : Nat)
    (h : sender = s.admin) :
    updateVerificationThreshold s sender t =
      .ok ({ s with verificationThreshold := t }, [Event.ThresholdUpdated t]) := by
  simp [updateVerificationThreshold, h]

/-- C5, witness for the amended theorem. -/
theorem C5_witness :
    (0 = (mkContract 0 5).admin) ∧
    updateVerificationThreshold (mkContract 0 5) 0 7 =
      .ok ({ mkContract 0 5 with verificationThreshold := 7 }, [Event.ThresholdUpdated 7]) :=
  ⟨rfl, C5_amended (mkContract 0 5) 0 7 rfl⟩

/-- C6: each component's encrypted score is the sum of three 1-or-0
contributions (checksum equality, size equality, version strictly greater
than zero), the stage's overall score is the sum of the three component
scores and is at most 9, and in the spec's worked scenario (reference
`(42,1024,3)`, bootloader checksum 41 mismatching, everything else matching)
the aggregate score is 8, which is not strictly greater than threshold 8
(decision `VerificationFailed`) but is strictly greater than threshold 7
(decision `VerificationPassed`). -/
theorem C6_component_scoring :
    (∀ (s : ContractState) (device : Address) (comp : FirmwareComponent),
      verifyComponent s device comp =
        (if comp.encryptedChecksum = s.trustedChecksums device then 1 else 0) +
        (if comp.encryptedSize = s.trustedSizes device then 1 else 0) +
        (if 0 < comp.encryptedVersion then 1 else 0)) ∧
    (∀ (s : ContractState) (sender : Address) (bc bs bv kc ks kv rc rs rv : Nat),
      stageScore s sender bc bs bv kc ks kv rc rs rv =
        verifyComponent s sender ⟨bc, bs, bv, false⟩ +
        verifyComponent s sender ⟨kc, ks, kv, false⟩ +
        verifyComponent s sender ⟨rc, rs, rv, false⟩ ∧
      stageScore s sender bc bs bv kc ks kv rc rs rv ≤ 9) ∧
    stageScore demoRef8 1 41 1024 3 42 1024 3 42 1024 3 = 8 ∧
    fheGt 8 (fheAsEuint32 8) = false ∧
    fheGt 8 (fheAsEuint32 7) = true ∧
    opEvents (.submit 1 41 1024 3 42 1024 3 42 1024 3 100) demoRef8 =
      [Event.BootAttempt 1 0, Event.VerificationFailed 1 0] ∧
    opEvents (.submit 1 41 1024 3 42 1024 3 42 1024 3 100) demoRef7 =
      [Event.BootAttempt 1 0, Event.VerificationPassed 1 0] :=
  ⟨verifyComponent_eq,
   fun s sender bc bs bv kc ks kv rc rs rv =>
     ⟨stageScore_eq s sender bc bs bv kc ks kv rc rs rv,
      stageScore_le s sender bc bs bv kc ks kv rc rs rv⟩,
   by decide, by decide, by decide, by decide, by decide⟩

/-- C7: every submission appends exactly one record for the sender — the
post-call stage count is the pre-call count plus one — and the `BootAttempt`
event carries `stageIndex` equal to the pre-call stage count, which is the
position at which the new record is stored (0-based, gapless). -/
theorem C7_stage_indexing (s : ContractState) (sender : Address)
    (bc bs bv kc ks kv rc rs rv ts : Nat) :
    getBootStageCount (verifyBootStage s sender bc bs bv kc ks kv rc rs rv ts).1 sender =
      getBootStageCount s sender + 1 ∧
    (verifyBootStage s sender bc bs bv kc ks kv rc rs rv ts).2.head? =
      some (Event.BootAttempt sender (getBootStageCount s sender)) := by
  rw [verifyBootStage_eq]
  exact ⟨by simp [getBootStageCount, mapUpdate_self], rfl⟩

/-- C8: the `isVerified` flags are monotonic under every contract operation:
for any device and stage index, a record that exists before an operation
still exists afterwards, and each of its three flags, once true, is still
true. -/
theorem C8_monotonic (op : Op) (s : ContractState) (d : Address) (i : Nat)
    (st : BootStage) (h : (s.deviceBootRecords d)[i]? = some st) :
    ∃ st', ((nextState op s).deviceBootRecords d)[i]? = some st' ∧
      (st.bootloader.isVerified = true → st'.bootloader.isVerified = true) ∧
      (st.kernel.isVerified = true → st'.kernel.isVerified = true) ∧
      (st.rootfs.isVerified = true → st'.rootfs.isVerified = true) := by
  cases op with
  | register sender device c sz v =>
    by_cases hA : sender = s.admin <;>
      simp only [nextState, applyOp, registerTrustedFirmware, hA, if_true, if_false] <;>
      exact ⟨st, h, fun x => x, fun x => x, fun x => x⟩
  | setThreshold sender t =>
    by_cases hA : sender = s.admin <;>
      simp only [nextState, applyOp, updateVerificationThreshold, hA, if_true, if_false] <;>
      exact ⟨st, h, fun x => x, fun x => x, fun x => x⟩
  | requestDecrypt sender stageId =>
    by_cases hlt : stageId < (s.deviceBootRecords sender).length <;>
      simp only [nextState, applyOp, requestBootStatusDecryption, hlt, if_true, if_false] <;>
      exact ⟨st, h, fun x => x, fun x => x, fun x => x⟩
  | submit sender bc bs bv kc ks kv rc rs rv ts =>
    obtain ⟨hi, -⟩ := List.getElem?_eq_some.mp h
    simp only [nextState, applyOp]
    rw [verifyBootStage_eq]
    by_cases hd : d = sender
    · subst hd
      simp only [mapUpdate_self]
      refine ⟨st, ?_, fun x => x, fun x => x, fun x => x⟩
      rw [List.getElem?_append, if_pos hi]
      exact h
    · simp only [mapUpdate_ne _ _ _ _ hd]
      exact ⟨st, h, fun x => x, fun x => x, fun x => x⟩
  | callback sender rid status pv =>
    cases pv with
    | false =>
      simp only [nextState, applyOp, decryptBootStatus, Bool.false_eq_true, if_false]
      exact ⟨st, h, fun x => x, fun x => x, fun x => x⟩
    | true =>
      by_cases h0 : (s.deviceBootRecords sender).length = 0
      · simp only [nextState, applyOp, decryptBootStatus, if_true, h0]
        exact ⟨st, h, fun x => x, fun x => x, fun x => x⟩
      · by_cases hth : s.verificationThreshold % UINT32_MOD < status
        · simp only [nextState, applyOp, decryptBootStatus, if_true, h0, if_false, hth]
          by_cases hd : d = sender
          · subst hd
            simp only [mapUpdate_self, getElem?_modifyAt]
            by_cases he : (s.deviceBootRecords d).length - 1 = i
            · refine ⟨setAllVerified st, ?_, fun _ => rfl, fun _ => rfl, fun _ => rfl⟩
              simp [he, h]
            · refine ⟨st, ?_, fun x => x, fun x => x, fun x => x⟩
              simp [he, h]
          · simp only [mapUpdate_ne _ _ _ _ hd]
            exact ⟨st, h, fun x => x, fun x => x, fun x => x⟩
        · simp only [nextState, applyOp, decryptBootStatus, if_true, h0, if_false, hth]
          exact ⟨st, h, fun x => x, fun x => x, fun x => x⟩

/-- C8, witness: submitting a further (junk) stage preserves the verified
flags of device 1's already-finalized stage 0 in `c8State`. -/
theorem C8_witness :
    (c8State.deviceBootRecords 1)[0]? = some verifiedDemoStage ∧
    ∃ st', ((nextState (.submit 1 5 5 5 5 5 5 5 5 5 300) c8State).deviceBootRecords 1)[0]? = some st' ∧
      (verifiedDemoStage.bootloader.isVerified = true → st'.bootloader.isVerified = true) ∧
      (verifiedDemoStage.kernel.isVerified = true → st'.kernel.isVerified = true) ∧
      (verifiedDemoStage.rootfs.isVerified = true → st'.rootfs.isVerified = true) :=
  ⟨by decide,
   C8_monotonic (.submit 1 5 5 5 5 5 5 5 5 5 300) c8State 1 0 verifiedDemoStage (by decide)⟩

/-- C9: a non-admin caller of `registerTrustedFirmware` or
`updateVerificationThreshold` is rejected by the `onlyAdmin` check (revert
"Admin only") and the transaction leaves the contract state unchanged. -/
theorem C9_admin_only (s : ContractState) (sender device : Address)
    (c sz v t : Nat) (h : sender ≠ s.admin) :
    registerTrustedFirmware s sender device c sz v = .error EvmError.adminOnly ∧
    updateVerificationThreshold s sender t = .error EvmError.adminOnly ∧
    nextState (.register sender device c sz v) s = s ∧
    nextState (.setThreshold sender t) s = s := by
  refine ⟨?_, ?_, ?_, ?_⟩ <;>
    simp [registerTrustedFirmware, updateVerificationThreshold, nextState, applyOp, h]

/-- C9, witness: caller 1 is not the admin (0) of `mkContract 0 5`. -/
theorem C9_witness :
    (1 ≠ (mkContract 0 5).admin) ∧
    (registerTrustedFirmware (mkContract 0 5) 1 2 42 1024 3 = .error EvmError.adminOnly ∧
     updateVerificationThreshold (mkContract 0 5) 1 7 = .error EvmError.adminOnly ∧
     nextState (.register 1 2 42 1024 3) (mkContract 0 5) = mkContract 0 5 ∧
     nextState (.setThreshold 1 7) (mkContract 0 5) = mkContract 0 5) :=
  ⟨by decide, C9_admin_only (mkContract 0 5) 1 2 42 1024 3 7 (by decide)⟩

/-- C10: an authenticated `decryptBootStatus` call from a sender with an
empty boot history reverts with a checked-arithmetic underflow (computing
`length - 1`) and changes no state, so the callback can never finalize a
stage for a caller with no recorded stages. -/
theorem C10_empty_history_reverts (s : ContractState) (sender : Address)
    (rid status : Nat) (h : s.deviceBootRecords sender = []) :
    decryptBootStatus s sender rid status true = .error EvmError.underflow ∧
    nextState (.callback sender rid status true) s = s := by
  constructor <;> simp [decryptBootStatus, nextState, applyOp, h]

/-- C10, witness: device 7 has no stages in the freshly deployed contract. -/
theorem C10_witness :
    (mkContract 0 5).deviceBootRecords 7 = [] ∧
    (decryptBootStatus (mkContract 0 5) 7 1 9 true = .error EvmError.underflow ∧
     nextState (.callback 7 1 9 true) (mkContract 0 5) = mkContract 0 5) :=
  ⟨rfl, C10_empty_history_reverts (mkContract 0 5) 7 1 9 rfl⟩

end SecureBootFHE
